import Mathlib

/-
Verification of the Belgian capital-gains-tax engine (belgian_cgt.py).

The source is embedded shallowly:
- monetary amounts and quantities are rationals (ℚ), the idealized arithmetic
  the source's constants and scenarios are written in;
- dates carry a calendar year and an absolute day index (day 0 = 2025-12-31),
  so that date comparison and day differences are integer arithmetic;
- Python dictionaries become total functions (with explicit key lists where the
  code iterates over items or relies on defaultdict key insertion);
- mutable Lot objects live in a Store (LotId → Lot); a transaction references
  its lot by id, which models the aliasing between the transaction list and
  the ledger;
- every failure mode of the code (ZeroDivisionError, KeyError on a missing
  CPI year or FMV entry, AttributeError on a None residency mapping) is an
  explicit constructor of Err, and fallible functions return Except Err.
-/

namespace BelgianCGT

-- ───────────────────────── tax regime constants ─────────────────────────

def CGT_RATE : ℚ := 0.10

def INTEREST_RATE : ℚ := 0.30

/-- TOB_RATES.get(regime, 0) from the source. -/
def tob_rate_of (r : String) : ℚ :=
  if r = "standard" then 0.0035
  else if r = "fund" then 0.0132
  else if r = "other" then 0.0012
  else 0

def BASE_EXEMPTION_2026 : ℚ := 10000

def MAX_EXEMPTION_2026 : ℚ := 15000

def CARRY_INCREMENT : ℚ := 1000

def WASH_WINDOW_DAYS : Int := 30

def BASE_CPI : ℚ := 128.10

/-- The CPI reference table hard-coded in the source (2025..2028). -/
def CPI_TABLE : Int → Option ℚ := fun y =>
  if y = 2025 then some 128.10
  else if y = 2026 then some 131.20
  else if y = 2027 then some 134.50
  else if y = 2028 then some 138.00
  else none

-- ───────────────────────── data model ─────────────────────────

/-- A calendar date: the year, and an absolute day index (day 0 = 2025-12-31),
so CUTOFF_DATE = 2026-01-01 has day index 1. -/
structure Date where
  year : Int
  day : Int
deriving DecidableEq, Repr

/-- days_between as used by the wash-sale window check. -/
def days_between (a b : Date) : Int := a.day - b.day

def CUTOFF_DATE : Date := ⟨2026, 1⟩

inductive TxType where
  | BUY
  | SELL
deriving DecidableEq, Repr

structure SecurityInfo where
  benchmark_id : Option String
  top_holdings : List String
deriving DecidableEq, Repr

/-- The similarity key: either the "BMK::" ++ benchmark branch, or the
"FP::" ++ hash(frozenset(top_holdings)) branch.  The frozenset fingerprint is
modelled as the canonical finite set of holdings (an order-independent,
collision-free idealization of the hash, matching the code's own comment that
it is "a unique, order-independent fingerprint"). -/
inductive Key where
  | bmk : String → Key
  | fp : Finset String → Key
deriving DecidableEq

/-- similarity_key(info).  Python truthiness: a None or empty benchmark id
falls through to the fingerprint branch. -/
def similarity_key (info : SecurityInfo) : Key :=
  match info.benchmark_id with
  | some b => if b = "" then Key.fp info.top_holdings.toFinset else Key.bmk b
  | none => Key.fp info.top_holdings.toFinset

abbrev LotId := Nat

structure Lot where
  qty : ℚ
  cost_basis_per_unit : ℚ
  acquired : Date
deriving DecidableEq, Repr

/-- The heap of mutable Lot objects; transactions and the portfolio refer to
lots by id, so basis adjustments through one alias are seen by the other. -/
abbrev Store := LotId → Lot

def updateStore (s : Store) (lid : LotId) (l : Lot) : Store :=
  fun j => if j = lid then l else s j

structure Tx where
  type : TxType
  date : Date
  asset_id : String
  qty : ℚ
  price_per_unit : ℚ
  interest_component : Option ℚ
  tob_regime : String
  security_info : SecurityInfo
  lot : LotId
deriving DecidableEq, Repr

/-- portfolio = defaultdict(list): a key list (dict insertion order, needed for
.items() iteration) plus the per-asset lot-id lists, defaulting to []. -/
structure Portfolio where
  keys : List String
  lots : String → List LotId

def insertKey (ks : List String) (a : String) : List String :=
  if a ∈ ks then ks else ks ++ [a]

inductive Err where
  | zeroDivision
  | missingFMVKey
  | missingCPIYear
  | attributeError
deriving DecidableEq, Repr

-- ───────────────────────── wash-sale resolver ─────────────────────────

def washMatch (loss tx : Tx) : Bool :=
  decide (tx.type = TxType.BUY) &&
  decide (similarity_key tx.security_info = similarity_key loss.security_info) &&
  decide (abs (days_between tx.date loss.date) ≤ WASH_WINDOW_DAYS)

/-- find_wash_sale_replacement_lot: first BUY in iteration order with the same
similarity key within the ±30-day window; its lot id, else none. -/
def find_wash_sale_replacement_lot (loss : Tx) : List Tx → Option LotId
  | [] => none
  | tx :: rest =>
    if washMatch loss tx then some tx.lot
    else find_wash_sale_replacement_lot loss rest

-- ───────────────────────── gain calculator ─────────────────────────

/-- Effective basis of a consumed lot (step 3 of realised_gain): the step-up
rule applies max(basis, FMV_31DEC2025.get(asset, basis)) to pre-cutoff lots. -/
def stepup_basis (fmv2025 : String → Option ℚ) (asset : String) (lot : Lot) : ℚ :=
  if lot.acquired.day < CUTOFF_DATE.day then
    max lot.cost_basis_per_unit ((fmv2025 asset).getD lot.cost_basis_per_unit)
  else lot.cost_basis_per_unit

/-- FIFO consumption loop of realised_gain: walks the asset's lot list, taking
min(lot.qty, remaining) from each lot while quantity remains, recording
(consumed qty, effective basis), zeroed lots are dropped from the list.
Returns (sold_lot_info, surviving lot list, updated store). -/
def fifoConsume (fmv2025 : String → Option ℚ) (asset : String) :
    List LotId → Store → ℚ → List (ℚ × ℚ) × List LotId × Store
  | [], s, _ => ([], [], s)
  | lid :: rest, s, need =>
    if need ≤ 0 then ([], lid :: rest, s)
    else
      let sellQty := min (s lid).qty need
      let res := fifoConsume fmv2025 asset rest
        (updateStore s lid ⟨(s lid).qty - sellQty, (s lid).cost_basis_per_unit, (s lid).acquired⟩)
        (need - sellQty)
      if (s lid).qty - sellQty = 0 then
        ((sellQty, stepup_basis fmv2025 asset (s lid)) :: res.1, res.2.1, res.2.2)
      else
        ((sellQty, stepup_basis fmv2025 asset (s lid)) :: res.1, lid :: res.2.1, res.2.2)

def rg_interest (tx : Tx) : ℚ := tx.interest_component.getD 0

def rg_gross (tx : Tx) : ℚ := tx.qty * tx.price_per_unit

def rg_sale_tob (tx : Tx) : ℚ := rg_gross tx * tob_rate_of tx.tob_regime

def rg_capital (tx : Tx) : ℚ := rg_gross tx - rg_interest tx - rg_sale_tob tx

def rg_avg (tx : Tx) : ℚ := rg_capital tx / tx.qty

def rg_fifo (fmv2025 : String → Option ℚ) (tx : Tx) (p : Portfolio) (s : Store) :
    List (ℚ × ℚ) × List LotId × Store :=
  fifoConsume fmv2025 tx.asset_id (p.lots tx.asset_id) s tx.qty

def rg_infos (fmv2025 : String → Option ℚ) (tx : Tx) (p : Portfolio) (s : Store) :
    List (ℚ × ℚ) :=
  (rg_fifo fmv2025 tx p s).1

def rg_rem (fmv2025 : String → Option ℚ) (tx : Tx) (p : Portfolio) (s : Store) :
    List LotId :=
  (rg_fifo fmv2025 tx p s).2.1

def rg_s1 (fmv2025 : String → Option ℚ) (tx : Tx) (p : Portfolio) (s : Store) : Store :=
  (rg_fifo fmv2025 tx p s).2.2

/-- Step 4/5: gain = Σ (avg price − effective basis) × consumed qty. -/
def rg_gain (fmv2025 : String → Option ℚ) (tx : Tx) (p : Portfolio) (s : Store) : ℚ :=
  (rg_infos fmv2025 tx p s).foldl (fun g pr => g + (rg_avg tx - pr.2) * pr.1) 0

/-- The portfolio after the sale: the asset's key inserted (defaultdict
getitem) and its lot list replaced by the surviving lots. -/
def rg_p1 (fmv2025 : String → Option ℚ) (tx : Tx) (p : Portfolio) (s : Store) : Portfolio :=
  ⟨insertKey p.keys tx.asset_id,
   fun a => if a = tx.asset_id then rg_rem fmv2025 tx p s else p.lots a⟩

/-- Wash-sale basis adjustment: the disallowed loss is added to the
replacement lot's cost basis distributed per unit. -/
def washAdjust (s : Store) (lid : LotId) (loss : ℚ) : Store :=
  updateStore s lid
    ⟨(s lid).qty, (s lid).cost_basis_per_unit + loss / (s lid).qty, (s lid).acquired⟩

/-- realised_gain(tx, portfolio, all_transactions): returns
((gain, interest_income), portfolio', store').  A zero sale quantity is the
source's ZeroDivisionError at the average-price division; a zero-quantity
replacement lot is its ZeroDivisionError at the deferral division. -/
def realised_gain (fmv2025 : String → Option ℚ) (tx : Tx) (p : Portfolio) (s : Store)
    (allTxs : List Tx) : Except Err ((ℚ × ℚ) × Portfolio × Store) :=
  if tx.qty = 0 then Except.error Err.zeroDivision
  else if rg_gain fmv2025 tx p s < 0 then
    match find_wash_sale_replacement_lot tx allTxs with
    | some lid =>
      if (rg_s1 fmv2025 tx p s lid).qty = 0 then Except.error Err.zeroDivision
      else
        Except.ok ((0, rg_interest tx), rg_p1 fmv2025 tx p s,
          washAdjust (rg_s1 fmv2025 tx p s) lid (abs (rg_gain fmv2025 tx p s)))
    | none =>
      Except.ok ((rg_gain fmv2025 tx p s, rg_interest tx),
        rg_p1 fmv2025 tx p s, rg_s1 fmv2025 tx p s)
  else
    Except.ok ((rg_gain fmv2025 tx p s, rg_interest tx),
      rg_p1 fmv2025 tx p s, rg_s1 fmv2025 tx p s)

/-- Projection of a realised_gain result onto (gain, interest). -/
def rgResult (e : Except Err ((ℚ × ℚ) × Portfolio × Store)) : Option (ℚ × ℚ) :=
  match e with
  | Except.ok r => some r.1
  | Except.error _ => none

/-- Projection of a realised_gain result onto the lot stored at an id. -/
def rgStoreAt (e : Except Err ((ℚ × ℚ) × Portfolio × Store)) (lid : LotId) : Option Lot :=
  match e with
  | Except.ok r => some (r.2.2 lid)
  | Except.error _ => none

def sumQty (s : Store) (lots : List LotId) : ℚ :=
  (lots.map (fun lid => (s lid).qty)).sum

def fmvNone : String → Option ℚ := fun _ => none

-- ───────────────────────── exit tax evaluator ─────────────────────────

/-- round(x, 2) on monetary amounts. -/
def round2 (x : ℚ) : ℚ := (round (x * 100) : ℤ) / 100

/-- Per-lot deemed-disposal gain.  Unlike realised_gain, the source indexes
FMV_31DEC2025[asset_id] strictly here (a KeyError when the pre-cutoff asset has
no step-up entry), despite its comment claiming the same step-up logic. -/
def exit_lot_gain (fmv2025 : String → Option ℚ) (asset : String)
    (exitFmv : String → Option ℚ) (lot : Lot) : Except Err ℚ :=
  match (if lot.acquired.day < CUTOFF_DATE.day then
          match fmv2025 asset with
          | none => Except.error Err.missingFMVKey
          | some v => Except.ok (max lot.cost_basis_per_unit v)
        else Except.ok lot.cost_basis_per_unit) with
  | Except.error e => Except.error e
  | Except.ok basis =>
    Except.ok (((exitFmv asset).getD basis - basis) * lot.qty)

/-- Inner loop of calculate_exit_tax over one asset's lots: sums the positive
per-lot gains, propagating the first lookup failure. -/
def exit_sum_lots (fmv2025 : String → Option ℚ) (exitFmv : String → Option ℚ)
    (asset : String) (s : Store) : List LotId → Except Err ℚ
  | [] => Except.ok 0
  | lid :: rest =>
    match exit_lot_gain fmv2025 asset exitFmv (s lid) with
    | Except.error e => Except.error e
    | Except.ok g =>
      match exit_sum_lots fmv2025 exitFmv asset s rest with
      | Except.error e => Except.error e
      | Except.ok restSum => Except.ok ((if g > 0 then g else 0) + restSum)

/-- Outer loop of calculate_exit_tax over portfolio.items(). -/
def exit_sum_assets (fmv2025 : String → Option ℚ) (exitFmv : String → Option ℚ)
    (p : Portfolio) (s : Store) : List String → Except Err ℚ
  | [] => Except.ok 0
  | a :: rest =>
    match exit_sum_lots fmv2025 exitFmv a s (p.lots a) with
    | Except.error e => Except.error e
    | Except.ok g =>
      match exit_sum_assets fmv2025 exitFmv p s rest with
      | Except.error e => Except.error e
      | Except.ok restSum => Except.ok (g + restSum)

/-- calculate_exit_tax(portfolio, exit_date, fmv_on_date).  A None
fmv_on_date is the source's TypeError on subscripting None; a missing
exit-date key is its KeyError; a missing per-asset exit value is NOT an error
(falls back to the lot's basis, i.e. zero gain). -/
def calculate_exit_tax (fmv2025 : String → Option ℚ) (p : Portfolio) (s : Store)
    (exit_date : String)
    (fmv_on_date : Option (String → Option (String → Option ℚ))) : Except Err ℚ :=
  match fmv_on_date with
  | none => Except.error Err.attributeError
  | some m =>
    match m exit_date with
    | none => Except.error Err.missingFMVKey
    | some exitFmv =>
      match exit_sum_assets fmv2025 exitFmv p s p.keys with
      | Except.error e => Except.error e
      | Except.ok total => Except.ok (round2 (total * CGT_RATE))

-- ───────────────────────── exemption tracker ─────────────────────────

/-- _indexed(amount, year): CPI[year] is a strict lookup, the MissingCPIYear
failure of the spec. -/
def indexed (cpi : Int → Option ℚ) (amount : ℚ) (year : Int) : Except Err ℚ :=
  match cpi year with
  | some c => Except.ok (amount * (c / BASE_CPI))
  | none => Except.error Err.missingCPIYear

def per_person_cap (cpi : Int → Option ℚ) (year : Int) : Except Err ℚ :=
  indexed cpi MAX_EXEMPTION_2026 year

def annual_base (cpi : Int → Option ℚ) (year : Int) : Except Err ℚ :=
  indexed cpi BASE_EXEMPTION_2026 year

/-- clamp_carry(year): carry = min(carry, cap − base). -/
def clamp_carry (cpi : Int → Option ℚ) (year : Int) (carry : ℚ) : Except Err ℚ :=
  match per_person_cap cpi year, annual_base cpi year with
  | Except.ok cap, Except.ok base => Except.ok (min carry (cap - base))
  | Except.error e, _ => Except.error e
  | _, Except.error e => Except.error e

/-- available(year, marital): clamps the carry, caps the per-person total and
doubles for couples.  Returns (available exemption, clamped carry). -/
def available (cpi : Int → Option ℚ) (year : Int) (marital : String) (carry : ℚ) :
    Except Err (ℚ × ℚ) :=
  match clamp_carry cpi year carry with
  | Except.error e => Except.error e
  | Except.ok c1 =>
    match annual_base cpi year, per_person_cap cpi year with
    | Except.ok base, Except.ok cap =>
      Except.ok ((if marital = "couple" then (2 : ℚ) else 1) * min (base + c1) cap, c1)
    | Except.error e, _ => Except.error e
    | _, Except.error e => Except.error e

/-- update_carry(unused, year): indexes year+1 and rolls at most
min(CARRY_INCREMENT, unused, next-year headroom) into the carry. -/
def update_carry (cpi : Int → Option ℚ) (unused : ℚ) (year : Int) (carry : ℚ) :
    Except Err ℚ :=
  match per_person_cap cpi (year + 1), annual_base cpi (year + 1) with
  | Except.ok cap, Except.ok base =>
    Except.ok (min (carry + min CARRY_INCREMENT (min unused ((cap - base) - carry)))
      (cap - base))
  | Except.error e, _ => Except.error e
  | _, Except.error e => Except.error e

-- ───────────────────────── annual orchestrator ─────────────────────────

/-- residency_status.get(year, "BE"). -/
def residencyAt (rs : List (Int × String)) (y : Int) : String :=
  (List.lookup y rs).getD "BE"

def exitDateStr (y : Int) : String := toString y ++ "-12-31"

/-- State threaded through phase 1: the year keys of the gains dict (insertion
order), the per-year gain and interest totals, the portfolio and lot store. -/
structure P1State where
  years : List Int
  gains : Int → ℚ
  interests : Int → ℚ
  port : Portfolio
  store : Store

def addAt (f : Int → ℚ) (y : Int) (v : ℚ) : Int → ℚ :=
  fun z => if z = y then f z + v else f z

def initState (s0 : Store) : P1State :=
  ⟨[], fun _ => 0, fun _ => 0, ⟨[], fun _ => []⟩, s0⟩

/-- Phase 1 of belgian_cgt: chronological replay.  Pre-2026 transactions are
skipped entirely; BUYs append their lot id to the asset's ledger list; SELLs
run realised_gain against the full (sorted) transaction list. -/
def phase1 (fmv2025 : String → Option ℚ) (allTxs : List Tx) :
    List Tx → P1State → Except Err P1State
  | [], st => Except.ok st
  | tx :: rest, st =>
    if tx.date.year < 2026 then phase1 fmv2025 allTxs rest st
    else
      match tx.type with
      | TxType.BUY =>
        phase1 fmv2025 allTxs rest
          ⟨st.years, st.gains, st.interests,
           ⟨insertKey st.port.keys tx.asset_id,
            fun a => if a = tx.asset_id then st.port.lots a ++ [tx.lot] else st.port.lots a⟩,
           st.store⟩
      | TxType.SELL =>
        match realised_gain fmv2025 tx st.port st.store allTxs with
        | Except.error e => Except.error e
        | Except.ok ((g, i), p1, s1) =>
          phase1 fmv2025 allTxs rest
            ⟨if tx.date.year ∈ st.years then st.years else st.years ++ [tx.date.year],
             addAt st.gains tx.date.year g, addAt st.interests tx.date.year i, p1, s1⟩

/-- One iteration of the phase-2 loop: Reynders tax, exemption-capped CGT,
carry update, then the exit tax on a home-to-abroad residency flip. -/
def phase2_year (cpi : Int → Option ℚ) (fmv2025 : String → Option ℚ) (marital : String)
    (rs : List (Int × String)) (fmv_on_date : Option (String → Option (String → Option ℚ)))
    (p : Portfolio) (s : Store) (gains interests : Int → ℚ) (carry : ℚ) (y : Int) :
    Except Err (ℚ × ℚ) :=
  match available cpi y marital carry with
  | Except.error e => Except.error e
  | Except.ok (exempt, c1) =>
    match update_carry cpi (max 0 (exempt - gains y)) y c1 with
    | Except.error e => Except.error e
    | Except.ok c2 =>
      if residencyAt rs y = "BE" ∧ ¬ residencyAt rs (y + 1) = "BE" then
        match calculate_exit_tax fmv2025 p s (exitDateStr y) fmv_on_date with
        | Except.error e => Except.error e
        | Except.ok et =>
          Except.ok (round2 (interests y * INTEREST_RATE) +
            round2 (max 0 (gains y - exempt) * CGT_RATE) + et, c2)
      else
        Except.ok (round2 (interests y * INTEREST_RATE) +
          round2 (max 0 (gains y - exempt) * CGT_RATE), c2)

/-- Phase 2 of belgian_cgt over the ascending year list. -/
def phase2 (cpi : Int → Option ℚ) (fmv2025 : String → Option ℚ) (marital : String)
    (rs : List (Int × String)) (fmv_on_date : Option (String → Option (String → Option ℚ)))
    (p : Portfolio) (s : Store) (gains interests : Int → ℚ) :
    List Int → ℚ → Except Err (List (Int × ℚ))
  | [], _ => Except.ok []
  | y :: ys, carry =>
    match phase2_year cpi fmv2025 marital rs fmv_on_date p s gains interests carry y with
    | Except.error e => Except.error e
    | Except.ok (t, c2) =>
      match phase2 cpi fmv2025 marital rs fmv_on_date p s gains interests ys c2 with
      | Except.error e => Except.error e
      | Except.ok rest => Except.ok ((y, t) :: rest)

/-- sorted(transactions) by date; Python's sort is stable. -/
def sort_by_date (txs : List Tx) : List Tx :=
  txs.mergeSort (fun a b => decide (a.date.day ≤ b.date.day))

/-- sorted(list(set(gain years) | set(residency years))). -/
def dedupSortYears (ys : List Int) : List Int :=
  ys.dedup.mergeSort (fun a b => decide (a ≤ b))

/-- belgian_cgt(transactions, marital, residency_status, fmv_on_date).
A None residency_status (the declared default) hits
residency_status.keys() in phase 2: the source's AttributeError. -/
def belgian_cgt (cpi : Int → Option ℚ) (fmv2025 : String → Option ℚ) (txs : List Tx)
    (s0 : Store) (marital : String) (residency_status : Option (List (Int × String)))
    (fmv_on_date : Option (String → Option (String → Option ℚ))) :
    Except Err (List (Int × ℚ)) :=
  match phase1 fmv2025 (sort_by_date txs) (sort_by_date txs) (initState s0) with
  | Except.error e => Except.error e
  | Except.ok st =>
    match residency_status with
    | none => Except.error Err.attributeError
    | some rs =>
      phase2 cpi fmv2025 marital rs fmv_on_date st.port st.store st.gains st.interests
        (dedupSortYears (st.years ++ rs.map Prod.fst)) 0

-- ───────────────────────── concrete instances ─────────────────────────

/-- Scenario A security (tracks a formal benchmark). -/
def secA : SecurityInfo := ⟨some "IDX-A", []⟩

/-- Scenario A lot: 10 units at basis 100/unit acquired 2026-01-05 (day 5). -/
def lotA : Lot := ⟨10, 100, ⟨2026, 5⟩⟩

/-- Scenario A sale: all 10 units at 90/unit on 2026-02-01 (day 32), standard regime. -/
def sellA : Tx := ⟨TxType.SELL, ⟨2026, 32⟩, "X", 10, 90, none, "standard", secA, 0⟩

def storeA : Store := fun _ => lotA

def portA : Portfolio := ⟨["X"], fun a => if a = "X" then [0] else []⟩

/-- The purchase that created lot 0 of asset X, 27 days before the sale. -/
def buyB : Tx := ⟨TxType.BUY, ⟨2026, 5⟩, "X", 10, 100, none, "standard", secA, 0⟩

/-- A partial sale of 5 of the 10 held units, leaving the matched lot non-empty. -/
def sellB : Tx := ⟨TxType.SELL, ⟨2026, 32⟩, "X", 5, 90, none, "standard", secA, 0⟩

/-- Oversell scenario: 5 units held at basis 80. -/
def lotD : Lot := ⟨5, 80, ⟨2026, 5⟩⟩

def storeD : Store := fun _ => lotD

def portD : Portfolio := ⟨["Z"], fun a => if a = "Z" then [0] else []⟩

/-- A sale of 10 units of Z when only 5 are held. -/
def sellD : Tx := ⟨TxType.SELL, ⟨2026, 32⟩, "Z", 10, 100, none, "standard", secA, 0⟩

/-- A sale of 12 units of Z when only 5 are held. -/
def sellD2 : Tx := ⟨TxType.SELL, ⟨2026, 32⟩, "Z", 12, 100, none, "standard", secA, 0⟩

/-- Exit-tax scenario: a pre-cutoff lot (acquired mid-2025) of asset Y. -/
def lotC : Lot := ⟨10, 50, ⟨2025, -214⟩⟩

def storeC : Store := fun _ => lotC

def portC : Portfolio := ⟨["Y"], fun a => if a = "Y" then [0] else []⟩

/-- Exit-date FMV table holding 80/unit for Y on 2026-12-31. -/
def exitFmvC : Option (String → Option (String → Option ℚ)) :=
  some (fun d => if d = "2026-12-31" then
    some (fun a => if a = "Y" then some 80 else none) else none)

/-- A post-cutoff lot of asset W, for the missing-exit-FMV fallback case. -/
def lotC2 : Lot := ⟨5, 40, ⟨2026, 10⟩⟩

def storeC2 : Store := fun _ => lotC2

def portC2 : Portfolio := ⟨["W"], fun a => if a = "W" then [0] else []⟩

/-- Wash-sale resolver demo: two matching BUYs, the first 27 days before the
sale, the second 2 days before it (nearer in time). -/
def buyW1 : Tx := ⟨TxType.BUY, ⟨2026, 5⟩, "X", 10, 100, none, "standard", secA, 7⟩

def buyW2 : Tx := ⟨TxType.BUY, ⟨2026, 30⟩, "X", 10, 100, none, "standard", secA, 9⟩

def sellW : Tx := ⟨TxType.SELL, ⟨2026, 32⟩, "X", 10, 90, none, "standard", secA, 0⟩

/-- An all-empty lot store, for runs without transactions. -/
def storeZ : Store := fun _ => ⟨0, 0, ⟨2026, 0⟩⟩

-- ───────────────────────── helper lemmas ─────────────────────────

lemma washMatch_iff (loss tx : Tx) :
    washMatch loss tx = true ↔
      (tx.type = TxType.BUY ∧
       similarity_key tx.security_info = similarity_key loss.security_info ∧
       abs (days_between tx.date loss.date) ≤ WASH_WINDOW_DAYS) := by
  simp [washMatch, Bool.and_eq_true, decide_eq_true_eq, and_assoc]

lemma find_replacement_eq_find? (loss : Tx) (txs : List Tx) :
    find_wash_sale_replacement_lot loss txs = (txs.find? (washMatch loss)).map Tx.lot := by
  induction txs with
  | nil => rfl
  | cons t ts ih =>
    by_cases h : washMatch loss t <;>
      simp [find_wash_sale_replacement_lot, List.find?, h, ih]

lemma rg_infos_nil (fmv2025 : String → Option ℚ) (tx : Tx) (p : Portfolio) (s : Store)
    (h : tx.qty ≤ 0) : rg_infos fmv2025 tx p s = [] := by
  unfold rg_infos rg_fifo
  cases hl : p.lots tx.asset_id with
  | nil => simp [fifoConsume]
  | cons a l => simp [fifoConsume, h]

lemma qty_ne_zero_of_gain_neg (fmv2025 : String → Option ℚ) (tx : Tx) (p : Portfolio)
    (s : Store) (h : rg_gain fmv2025 tx p s < 0) : tx.qty ≠ 0 := by
  intro h0
  have hnil := rg_infos_nil fmv2025 tx p s (le_of_eq h0)
  unfold rg_gain at h
  rw [hnil] at h
  simp at h

lemma fifo_consume_all (fmv2025 : String → Option ℚ) (asset : String) :
    ∀ (lots : List LotId) (s : Store) (need : ℚ), lots.Nodup →
      (∀ lid ∈ lots, 0 ≤ (s lid).qty) → sumQty s lots < need →
      (fifoConsume fmv2025 asset lots s need).2.1 = [] ∧
      ((fifoConsume fmv2025 asset lots s need).1.map Prod.fst).sum = sumQty s lots := by
  intro lots
  induction lots with
  | nil =>
    intro s need _ _ _
    simp [fifoConsume, sumQty]
  | cons lid rest ih =>
    intro s need hnd hpos hover
    have hq0 : 0 ≤ (s lid).qty := hpos lid (List.mem_cons_self lid rest)
    have hrestpos : ∀ l ∈ rest, 0 ≤ (s l).qty :=
      fun l hl => hpos l (List.mem_cons_of_mem lid hl)
    have hsumrest : 0 ≤ sumQty s rest := by
      apply List.sum_nonneg
      intro x hx
      obtain ⟨l, hl, rfl⟩ := List.mem_map.mp hx
      exact hrestpos l hl
    have hsum : sumQty s (lid :: rest) = (s lid).qty + sumQty s rest := by
      simp [sumQty]
    rw [hsum] at hover
    have hneed : ¬ need ≤ 0 := by push_neg; linarith
    have hlt : (s lid).qty < need := by linarith
    have hmin : min (s lid).qty need = (s lid).qty := min_eq_left (le_of_lt hlt)
    have hlidnot : lid ∉ rest := (List.nodup_cons.mp hnd).1
    have hndrest : rest.Nodup := (List.nodup_cons.mp hnd).2
    have hs1 : ∀ l ∈ rest,
        updateStore s lid ⟨(s lid).qty - min (s lid).qty need,
          (s lid).cost_basis_per_unit, (s lid).acquired⟩ l = s l := by
      intro l hl
      unfold updateStore
      have : l ≠ lid := fun he => hlidnot (he ▸ hl)
      simp [this]
    have hsum1 : sumQty (updateStore s lid ⟨(s lid).qty - min (s lid).qty need,
        (s lid).cost_basis_per_unit, (s lid).acquired⟩) rest = sumQty s rest := by
      unfold sumQty
      congr 1
      apply List.map_congr_left
      intro l hl
      rw [hs1 l hl]
    have ihres := ih (updateStore s lid ⟨(s lid).qty - min (s lid).qty need,
        (s lid).cost_basis_per_unit, (s lid).acquired⟩) (need - min (s lid).qty need)
      hndrest
      (fun l hl => (hs1 l hl) ▸ hrestpos l hl)
      (by rw [hsum1, hmin]; linarith)
    rw [hmin, sub_self] at hsum1
    rw [hmin, sub_self, hsum1] at ihres
    simp only [fifoConsume, if_neg hneed]
    rw [hmin, sub_self, if_pos rfl]
    constructor
    · exact ihres.1
    · simp only [List.map_cons, List.sum_cons, ihres.2, hsum]

-- ───────────────────────── claim theorems ─────────────────────────

/-- C6: on Scenario A (buy 10 units at basis 100/unit on 2026-01-05; sell all
10 at 90/unit on 2026-02-01 under the standard 0.35% regime; no
similarity-matching transaction within ±30 days), realised_gain computes gross
proceeds 900, sale tax 3.15, net capital proceeds 896.85, average price
89.685, and realized gain (89.685 − 100) × 10 = −103.15 with no deferral. -/
theorem scenarioA_values :
    rg_gross sellA = 900 ∧ rg_sale_tob sellA = 3.15 ∧ rg_capital sellA = 896.85 ∧
    rg_avg sellA = 89.685 ∧
    find_wash_sale_replacement_lot sellA [sellA] = none ∧
    rgResult (realised_gain fmvNone sellA portA storeA [sellA]) =
      some (-103.15, 0) := by
  refine ⟨by norm_num [rg_gross, sellA],
    by norm_num [rg_sale_tob, rg_gross, tob_rate_of, sellA],
    by norm_num [rg_capital, rg_gross, rg_sale_tob, rg_interest, tob_rate_of, sellA],
    by norm_num [rg_avg, rg_capital, rg_gross, rg_sale_tob, rg_interest, tob_rate_of, sellA],
    by decide, ?_⟩
  have hfind : find_wash_sale_replacement_lot sellA [sellA] = none := by decide
  have hneg : rg_gain fmvNone sellA portA storeA = -103.15 := by
    norm_num [rg_gain, rg_infos, rg_fifo, fifoConsume, portA, storeA, lotA, sellA,
      stepup_basis, updateStore, CUTOFF_DATE, fmvNone, rg_avg, rg_capital, rg_gross,
      rg_sale_tob, rg_interest, tob_rate_of]
  have hq : sellA.qty = 10 := rfl
  simp only [realised_gain, hfind, hneg, hq]
  norm_num [rgResult, rg_interest, sellA]

/-- C5: find_wash_sale_replacement_lot returns the lot of the first
transaction in the given iteration order that is a BUY with the same
similarity key within the inclusive ±30-day window (List.find?, i.e. earliest
in the supplied ordering, not nearest in time), and returns none exactly when
no transaction in the list satisfies all three conditions. -/
theorem find_replacement_first_match (loss : Tx) (txs : List Tx) :
    find_wash_sale_replacement_lot loss txs = (txs.find? (washMatch loss)).map Tx.lot ∧
    (find_wash_sale_replacement_lot loss txs = none ↔
      ∀ tx ∈ txs, ¬(tx.type = TxType.BUY ∧
        similarity_key tx.security_info = similarity_key loss.security_info ∧
        abs (days_between tx.date loss.date) ≤ WASH_WINDOW_DAYS)) := by
  constructor
  · exact find_replacement_eq_find? loss txs
  · rw [find_replacement_eq_find? loss txs]
    simp only [Option.map_eq_none', List.find?_eq_none, washMatch_iff]

/-- Witness for C5 at a concrete input: with two matching BUYs in the list,
the resolver returns the first one's lot (27 days away) even though the
second (2 days away) is nearer in time. -/
theorem find_replacement_first_match_witness :
    find_wash_sale_replacement_lot sellW [buyW1, buyW2] = some 7 ∧
    abs (days_between buyW1.date sellW.date) = 27 ∧
    abs (days_between buyW2.date sellW.date) = 2 := by
  refine ⟨?_, by decide, by decide⟩
  rw [(find_replacement_first_match sellW [buyW1, buyW2]).1]
  decide

/-- C7: similarity_key is a pure function of the SecurityInfo value: it
depends only on the benchmark id and the set of top holdings (so any two
evaluations on equal inputs agree, independent of holdings order or
duplication); and for securities without a benchmark id, two keys are equal
exactly when the top-holdings sets are exactly equal.  (The source's
frozenset-hash fingerprint is modelled as the canonical holdings set, the
collision-free idealization its own comment describes.) -/
theorem similarity_key_pure :
    (∀ i1 i2 : SecurityInfo, i1.benchmark_id = i2.benchmark_id →
      i1.top_holdings.toFinset = i2.top_holdings.toFinset →
      similarity_key i1 = similarity_key i2) ∧
    (∀ i1 i2 : SecurityInfo, i1.benchmark_id = none → i2.benchmark_id = none →
      (similarity_key i1 = similarity_key i2 ↔
        i1.top_holdings.toFinset = i2.top_holdings.toFinset)) := by
  constructor
  · intro i1 i2 hb hh
    simp only [similarity_key]
    rw [← hb, ← hh]
  · intro i1 i2 h1 h2
    simp [similarity_key, h1, h2]

/-- Witness for C7: reordering and duplicating holdings leaves the key
unchanged; distinct holdings sets give distinct keys. -/
theorem similarity_key_pure_witness :
    similarity_key ⟨none, ["AAA", "BBB"]⟩ = similarity_key ⟨none, ["BBB", "AAA", "AAA"]⟩ ∧
    similarity_key ⟨none, ["AAA"]⟩ ≠ similarity_key ⟨none, ["BBB"]⟩ := by
  constructor
  · exact similarity_key_pure.1 ⟨none, ["AAA", "BBB"]⟩ ⟨none, ["BBB", "AAA", "AAA"]⟩ rfl
      (by decide)
  · intro hc
    have hs := (similarity_key_pure.2 ⟨none, ["AAA"]⟩ ⟨none, ["BBB"]⟩ rfl rfl).mp hc
    exact absurd hs (by decide)

/-- C1: when a sale's computed gain is negative, then (a) if the resolver
finds a replacement lot (with nonzero remaining quantity — see C8 for why
that precondition is needed), realised_gain returns gain exactly 0 and the
replacement lot's cost basis per unit increases by exactly |loss| divided by
that lot's quantity, all other lots unchanged; and (b) if no matching BUY
exists in the window, the negative gain is returned unchanged. -/
theorem wash_sale_deferral (fmv2025 : String → Option ℚ) (tx : Tx) (p : Portfolio)
    (s : Store) (allTxs : List Tx) (hneg : rg_gain fmv2025 tx p s < 0) :
    (∀ lid : LotId, find_wash_sale_replacement_lot tx allTxs = some lid →
      (rg_s1 fmv2025 tx p s lid).qty ≠ 0 →
      realised_gain fmv2025 tx p s allTxs =
        Except.ok ((0, rg_interest tx), rg_p1 fmv2025 tx p s,
          washAdjust (rg_s1 fmv2025 tx p s) lid (abs (rg_gain fmv2025 tx p s))) ∧
      (washAdjust (rg_s1 fmv2025 tx p s) lid (abs (rg_gain fmv2025 tx p s)) lid).cost_basis_per_unit =
        (rg_s1 fmv2025 tx p s lid).cost_basis_per_unit +
          abs (rg_gain fmv2025 tx p s) / (rg_s1 fmv2025 tx p s lid).qty ∧
      (∀ j : LotId, j ≠ lid →
        washAdjust (rg_s1 fmv2025 tx p s) lid (abs (rg_gain fmv2025 tx p s)) j =
          rg_s1 fmv2025 tx p s j)) ∧
    (find_wash_sale_replacement_lot tx allTxs = none →
      realised_gain fmv2025 tx p s allTxs =
        Except.ok ((rg_gain fmv2025 tx p s, rg_interest tx),
          rg_p1 fmv2025 tx p s, rg_s1 fmv2025 tx p s)) := by
  have hq := qty_ne_zero_of_gain_neg fmv2025 tx p s hneg
  constructor
  · intro lid hfind hqty
    refine ⟨?_, ?_, ?_⟩
    · simp only [realised_gain, hfind, if_neg hq, if_pos hneg, if_neg hqty]
    · simp [washAdjust, updateStore]
    · intro j hj
      simp [washAdjust, updateStore, hj]
  · intro hfind
    simp only [realised_gain, hfind, if_neg hq, if_pos hneg]

/-- Witness for C1: selling 5 of 10 held units at a loss of 51.575 with the
original purchase 27 days earlier in the window defers the whole loss: gain
0, and the remaining 5-unit lot's basis becomes 100 + 51.575/5 = 110.315. -/
theorem wash_sale_deferral_witness :
    rgResult (realised_gain fmvNone sellB portA storeA [buyB, sellB]) = some (0, 0) ∧
    rgStoreAt (realised_gain fmvNone sellB portA storeA [buyB, sellB]) 0 =
      some ⟨5, 110.315, ⟨2026, 5⟩⟩ := by
  have hneg : rg_gain fmvNone sellB portA storeA = -51.575 := by
    norm_num [rg_gain, rg_infos, rg_fifo, fifoConsume, portA, storeA, lotA, sellB,
      stepup_basis, updateStore, CUTOFF_DATE, fmvNone, rg_avg, rg_capital, rg_gross,
      rg_sale_tob, rg_interest, tob_rate_of]
  have h := (wash_sale_deferral fmvNone sellB portA storeA [buyB, sellB]
    (by rw [hneg]; norm_num)).1 0 (by decide)
    (by
      norm_num [rg_s1, rg_fifo, fifoConsume, portA, storeA, lotA, sellB,
        updateStore, fmvNone])
  rw [h.1]
  constructor
  · norm_num [rgResult, rg_interest, sellB]
  · rw [rgStoreAt]
    norm_num [washAdjust, updateStore, rg_s1, rg_fifo, fifoConsume, portA, storeA,
      lotA, sellB, stepup_basis, CUTOFF_DATE, fmvNone, hneg, rg_gain, rg_infos,
      rg_avg, rg_capital, rg_gross, rg_sale_tob, rg_interest, tob_rate_of]
    rw [abs_of_pos (by norm_num : (0 : ℚ) < 2063 / 40)]
    norm_num

/-- C8: the wash-sale deferral division is guarded by nothing: the resolver
scans raw BUY transactions without consulting remaining lot quantities, so
whenever the matched replacement lot has zero remaining quantity and the sale
realises a loss, realised_gain aborts with the division-by-zero error; only
the precondition that the matched lot still holds units avoids this. -/
theorem wash_zero_qty_division (fmv2025 : String → Option ℚ) (tx : Tx) (p : Portfolio)
    (s : Store) (allTxs : List Tx) (lid : LotId)
    (hneg : rg_gain fmv2025 tx p s < 0)
    (hfind : find_wash_sale_replacement_lot tx allTxs = some lid)
    (hzero : (rg_s1 fmv2025 tx p s lid).qty = 0) :
    realised_gain fmv2025 tx p s allTxs = Except.error Err.zeroDivision := by
  have hq := qty_ne_zero_of_gain_neg fmv2025 tx p s hneg
  simp only [realised_gain, hfind, if_neg hq, if_pos hneg, if_pos hzero]

/-- Witness for C8: a sale that FIFO-consumes its own lot down to zero still
matches that lot's BUY in the wash-sale window, and the run aborts with the
zero-division error. -/
theorem wash_zero_qty_division_witness :
    find_wash_sale_replacement_lot sellA [buyB, sellA] = some 0 ∧
    (rg_s1 fmvNone sellA portA storeA 0).qty = 0 ∧
    realised_gain fmvNone sellA portA storeA [buyB, sellA] =
      Except.error Err.zeroDivision := by
  have hneg : rg_gain fmvNone sellA portA storeA = -103.15 := by
    norm_num [rg_gain, rg_infos, rg_fifo, fifoConsume, portA, storeA, lotA, sellA,
      stepup_basis, updateStore, CUTOFF_DATE, fmvNone, rg_avg, rg_capital, rg_gross,
      rg_sale_tob, rg_interest, tob_rate_of]
  have hzero : (rg_s1 fmvNone sellA portA storeA 0).qty = 0 := by
    norm_num [rg_s1, rg_fifo, fifoConsume, portA, storeA, lotA, sellA,
      updateStore, fmvNone]
  exact ⟨by decide, hzero,
    wash_zero_qty_division fmvNone sellA portA storeA [buyB, sellA] 0
      (by rw [hneg]; norm_num) (by decide) hzero⟩

/-- C2 counterexample: a SELL of 10 units of Z when only 5 are held does NOT
fail — realised_gain returns a result (gain 98.25 computed over the 5
consumed units, with the average price still divided by the full requested
10).  No InsufficientLotQuantity failure exists in the code. -/
theorem oversell_returns_result :
    sumQty storeD (portD.lots "Z") < sellD.qty ∧
    rgResult (realised_gain fmvNone sellD portD storeD [sellD]) = some (98.25, 0) := by
  have hg : rg_gain fmvNone sellD portD storeD = 98.25 := by
    norm_num [rg_gain, rg_infos, rg_fifo, fifoConsume, portD, storeD, lotD, sellD,
      stepup_basis, updateStore, CUTOFF_DATE, fmvNone, rg_avg, rg_capital, rg_gross,
      rg_sale_tob, rg_interest, tob_rate_of]
  have hq : sellD.qty = 10 := rfl
  constructor
  · norm_num [sumQty, portD, storeD, lotD, sellD]
  · simp only [realised_gain, hg, hq]
    norm_num [rgResult, rg_interest, sellD]

/-- C2 (amended): an oversell is not an error.  When the requested quantity
exceeds the total (nonnegative, duplicate-free) held quantity and no
wash-sale replacement matches, realised_gain consumes every held lot (the
surviving lot list is empty and the consumed quantity equals the total held)
and returns normally, the gain computed over the consumed quantity only. -/
theorem oversell_no_error (fmv2025 : String → Option ℚ) (tx : Tx) (p : Portfolio)
    (s : Store) (allTxs : List Tx)
    (hnd : (p.lots tx.asset_id).Nodup)
    (hpos : ∀ lid ∈ p.lots tx.asset_id, 0 ≤ (s lid).qty)
    (hover : sumQty s (p.lots tx.asset_id) < tx.qty)
    (hnof : find_wash_sale_replacement_lot tx allTxs = none) :
    rg_rem fmv2025 tx p s = [] ∧
    ((rg_infos fmv2025 tx p s).map Prod.fst).sum = sumQty s (p.lots tx.asset_id) ∧
    realised_gain fmv2025 tx p s allTxs =
      Except.ok ((rg_gain fmv2025 tx p s, rg_interest tx),
        rg_p1 fmv2025 tx p s, rg_s1 fmv2025 tx p s) := by
  have hsumnn : 0 ≤ sumQty s (p.lots tx.asset_id) := by
    apply List.sum_nonneg
    intro x hx
    obtain ⟨l, hl, rfl⟩ := List.mem_map.mp hx
    exact hpos l hl
  have hq : tx.qty ≠ 0 := by
    intro h0
    rw [h0] at hover
    linarith
  have hmain := fifo_consume_all fmv2025 tx.asset_id (p.lots tx.asset_id) s tx.qty
    hnd hpos hover
  refine ⟨hmain.1, hmain.2, ?_⟩
  by_cases hg : rg_gain fmv2025 tx p s < 0
  · simp only [realised_gain, hnof, if_neg hq, if_pos hg]
  · simp only [realised_gain, if_neg hq, if_neg hg]

/-- Witness for C2's amended statement: selling 12 units of Z with 5 held
consumes the whole lot, leaves the ledger list empty, and returns gain 98.25
over the 5 consumed units. -/
theorem oversell_no_error_witness :
    rg_rem fmvNone sellD2 portD storeD = [] ∧
    ((rg_infos fmvNone sellD2 portD storeD).map Prod.fst).sum =
      sumQty storeD (portD.lots "Z") ∧
    rgResult (realised_gain fmvNone sellD2 portD storeD [sellD2]) = some (98.25, 0) := by
  have h := oversell_no_error fmvNone sellD2 portD storeD [sellD2]
    (by decide)
    (by norm_num [portD, storeD, lotD, sellD2])
    (by norm_num [sumQty, portD, storeD, lotD, sellD2])
    (by decide)
  have hg : rg_gain fmvNone sellD2 portD storeD = 98.25 := by
    norm_num [rg_gain, rg_infos, rg_fifo, fifoConsume, portD, storeD, lotD, sellD2,
      stepup_basis, updateStore, CUTOFF_DATE, fmvNone, rg_avg, rg_capital, rg_gross,
      rg_sale_tob, rg_interest, tob_rate_of]
  refine ⟨h.1, h.2.1, ?_⟩
  rw [h.2.2]
  simp only [rgResult]
  rw [hg]
  norm_num [rg_interest, sellD2]

/-- C3 (code bug): the exit-tax step-up lookup is strict.  The realised-gain
step-up rule (stepup_basis) leaves a pre-cutoff lot's basis unchanged when no
2025 FMV entry exists for the asset, but calculate_exit_tax indexes the 2025
FMV table directly and aborts with a missing-key error on the very same lot —
contradicting both the claim and the code's own comment.  Missing EXIT-date
per-asset values, in contrast, do default to the basis (zero gain, tax 0). -/
theorem exit_tax_strict_stepup_lookup :
    stepup_basis fmvNone "Y" lotC = lotC.cost_basis_per_unit ∧
    calculate_exit_tax fmvNone portC storeC "2026-12-31" exitFmvC =
      Except.error Err.missingFMVKey ∧
    calculate_exit_tax fmvNone portC2 storeC2 "2026-12-31"
      (some (fun _ => some (fun _ => none))) = Except.ok 0 := by
  refine ⟨?_, ?_, ?_⟩
  · norm_num [stepup_basis, lotC, CUTOFF_DATE, fmvNone]
  · rfl
  · norm_num [calculate_exit_tax, exit_sum_assets, exit_sum_lots, exit_lot_gain,
      portC2, storeC2, lotC2, CUTOFF_DATE, fmvNone, round2, CGT_RATE]

/-- C4: the Exemption Tracker's carry bound.  Whenever clamp_carry succeeds
for year y the resulting carry is at most perPersonCap(y) − annualBase(y);
available(y, marital) leaves the carry under the same bound; and update_carry
(unused, y) leaves the carry at most perPersonCap(y+1) − annualBase(y+1). -/
theorem exemption_carry_bound (cpi : Int → Option ℚ) (y : Int) (m : String)
    (c c' cap base u : ℚ) :
    (per_person_cap cpi y = Except.ok cap → annual_base cpi y = Except.ok base →
      clamp_carry cpi y c = Except.ok c' → c' ≤ cap - base) ∧
    (∀ e : ℚ, per_person_cap cpi y = Except.ok cap → annual_base cpi y = Except.ok base →
      available cpi y m c = Except.ok (e, c') → c' ≤ cap - base) ∧
    (per_person_cap cpi (y + 1) = Except.ok cap →
      annual_base cpi (y + 1) = Except.ok base →
      update_carry cpi u y c = Except.ok c' → c' ≤ cap - base) := by
  refine ⟨?_, ?_, ?_⟩
  · intro hcap hbase hclamp
    cases hc : cpi y with
    | none => simp [per_person_cap, indexed, hc] at hcap
    | some v =>
      simp only [per_person_cap, annual_base, indexed, hc, Except.ok.injEq] at hcap hbase
      simp only [clamp_carry, per_person_cap, annual_base, indexed, hc,
        Except.ok.injEq] at hclamp
      rw [hcap, hbase] at hclamp
      rw [← hclamp]
      exact min_le_right _ _
  · intro e hcap hbase hav
    cases hc : cpi y with
    | none => simp [per_person_cap, indexed, hc] at hcap
    | some v =>
      simp only [per_person_cap, annual_base, indexed, hc, Except.ok.injEq] at hcap hbase
      simp only [available, clamp_carry, per_person_cap, annual_base, indexed, hc,
        Except.ok.injEq, Prod.mk.injEq] at hav
      rw [hcap, hbase] at hav
      rw [← hav.2]
      exact min_le_right _ _
  · intro hcap hbase hupd
    cases hc : cpi (y + 1) with
    | none => simp [per_person_cap, indexed, hc] at hcap
    | some v =>
      simp only [per_person_cap, annual_base, indexed, hc, Except.ok.injEq] at hcap hbase
      simp only [update_carry, per_person_cap, annual_base, indexed, hc,
        Except.ok.injEq] at hupd
      rw [hcap, hbase] at hupd
      rw [← hupd]
      exact min_le_right _ _

/-- Witness for C4 on the source CPI table at year 2026 with carry 6000:
clamping yields 6560000/1281 ≈ 5120.99, exactly cap − base; updating into
2027 yields 6725000/1281, again at most 2027's cap − base. -/
theorem exemption_carry_bound_witness :
    clamp_carry CPI_TABLE 2026 6000 = Except.ok (6560000 / 1281) ∧
    available CPI_TABLE 2026 "single" 6000 = Except.ok (6560000 / 427, 6560000 / 1281) ∧
    update_carry CPI_TABLE 0 2026 6000 = Except.ok (6725000 / 1281) ∧
    ((6560000 / 1281 : ℚ) ≤ 6560000 / 427 - 13120000 / 1281 ∧
     (6725000 / 1281 : ℚ) ≤ 20175000 / 1281 - 13450000 / 1281) := by
  have hcap26 : per_person_cap CPI_TABLE 2026 = Except.ok (6560000 / 427) := by
    norm_num [per_person_cap, indexed, CPI_TABLE, MAX_EXEMPTION_2026, BASE_CPI]
  have hbase26 : annual_base CPI_TABLE 2026 = Except.ok (13120000 / 1281) := by
    norm_num [annual_base, indexed, CPI_TABLE, BASE_EXEMPTION_2026, BASE_CPI]
  have hcap27 : per_person_cap CPI_TABLE (2026 + 1) = Except.ok (20175000 / 1281) := by
    norm_num [per_person_cap, indexed, CPI_TABLE, MAX_EXEMPTION_2026, BASE_CPI]
  have hbase27 : annual_base CPI_TABLE (2026 + 1) = Except.ok (13450000 / 1281) := by
    norm_num [annual_base, indexed, CPI_TABLE, BASE_EXEMPTION_2026, BASE_CPI]
  have hclamp : clamp_carry CPI_TABLE 2026 6000 = Except.ok (6560000 / 1281) := by
    norm_num [clamp_carry, per_person_cap, annual_base, indexed, CPI_TABLE,
      MAX_EXEMPTION_2026, BASE_EXEMPTION_2026, BASE_CPI, min_def]
  have hav : available CPI_TABLE 2026 "single" 6000 =
      Except.ok (6560000 / 427, 6560000 / 1281) := by
    norm_num [available, clamp_carry, per_person_cap, annual_base, indexed, CPI_TABLE,
      MAX_EXEMPTION_2026, BASE_EXEMPTION_2026, BASE_CPI, min_def]
    decide
  have hupd : update_carry CPI_TABLE 0 2026 6000 = Except.ok (6725000 / 1281) := by
    norm_num [update_carry, per_person_cap, annual_base, indexed, CPI_TABLE,
      MAX_EXEMPTION_2026, BASE_EXEMPTION_2026, CARRY_INCREMENT, BASE_CPI, min_def]
  refine ⟨hclamp, hav, hupd, ?_, ?_⟩
  · exact (exemption_carry_bound CPI_TABLE 2026 "single" 6000 (6560000 / 1281)
      (6560000 / 427) (13120000 / 1281) 0).1 hcap26 hbase26 hclamp
  · exact (exemption_carry_bound CPI_TABLE 2026 "single" 6000 (6725000 / 1281)
      (20175000 / 1281) (13450000 / 1281) 0).2.2 hcap27 hbase27 hupd

/-- C9: update_carry for year y indexes year y+1, so every year processed by
the phase-2 loop needs a CPI entry for the following year as well: if
CPI(y+1) is missing, the year's phase-2 step fails, the loop fails, and the
whole belgian_cgt computation fails with the missing-CPI error — even when
year y itself has a CPI entry and no later year holds transactions. -/
theorem missing_next_cpi_aborts (cpi : Int → Option ℚ) (fmv2025 : String → Option ℚ)
    (marital : String) (rs : List (Int × String))
    (fmvOnDate : Option (String → Option (String → Option ℚ)))
    (p : Portfolio) (s : Store) (gains interests : Int → ℚ) (y : Int) (ys : List Int)
    (carry : ℚ) (h : cpi (y + 1) = none) :
    phase2_year cpi fmv2025 marital rs fmvOnDate p s gains interests carry y =
      Except.error Err.missingCPIYear ∧
    phase2 cpi fmv2025 marital rs fmvOnDate p s gains interests (y :: ys) carry =
      Except.error Err.missingCPIYear ∧
    (∀ (txs : List Tx) (s0 : Store) (st : P1State),
      phase1 fmv2025 (sort_by_date txs) (sort_by_date txs) (initState s0) =
        Except.ok st →
      dedupSortYears (st.years ++ rs.map Prod.fst) = y :: ys →
      belgian_cgt cpi fmv2025 txs s0 marital (some rs) fmvOnDate =
        Except.error Err.missingCPIYear) := by
  have hyear : ∀ (p' : Portfolio) (s' : Store) (g i : Int → ℚ) (c : ℚ),
      phase2_year cpi fmv2025 marital rs fmvOnDate p' s' g i c y =
        Except.error Err.missingCPIYear := by
    intro p' s' g i c
    cases hc : cpi y with
    | none =>
      simp [phase2_year, available, clamp_carry, per_person_cap, annual_base,
        indexed, hc]
    | some v =>
      simp [phase2_year, available, clamp_carry, per_person_cap, annual_base,
        indexed, update_carry, hc, h]
  have hphase2 : ∀ (p' : Portfolio) (s' : Store) (g i : Int → ℚ) (c : ℚ),
      phase2 cpi fmv2025 marital rs fmvOnDate p' s' g i (y :: ys) c =
        Except.error Err.missingCPIYear := by
    intro p' s' g i c
    simp only [phase2, hyear p' s' g i c]
  refine ⟨hyear p s gains interests carry, hphase2 p s gains interests carry, ?_⟩
  intro txs s0 st hp1 hys
  simp only [belgian_cgt, hp1, hys]
  exact hphase2 st.port st.store st.gains st.interests 0

/-- Witness for C9 on the source CPI table: 2028 has a CPI entry but 2029
does not, so processing year 2028 (here: a residency-only year with no
transactions at all) aborts the whole computation. -/
theorem missing_next_cpi_aborts_witness :
    CPI_TABLE 2028 = some 138.00 ∧ CPI_TABLE (2028 + 1) = none ∧
    phase2_year CPI_TABLE fmvNone "single" [((2028 : Int), "BE")] none
      (initState storeZ).port storeZ (fun _ => 0) (fun _ => 0) 0 2028 =
      Except.error Err.missingCPIYear ∧
    belgian_cgt CPI_TABLE fmvNone [] storeZ "single" (some [((2028 : Int), "BE")])
      none = Except.error Err.missingCPIYear := by
  have h := missing_next_cpi_aborts CPI_TABLE fmvNone "single" [((2028 : Int), "BE")]
    none (initState storeZ).port storeZ (fun _ => 0) (fun _ => 0) 2028 [] 0 rfl
  exact ⟨rfl, rfl, h.1, h.2.2 [] storeZ (initState storeZ)
    (by simp [sort_by_date, phase1]) (by simp [dedupSortYears, initState])⟩

/-- C10: belgian_cgt called with residency_status = None (its declared
default) fails with the attribute error as soon as phase 2 collects the year
set, whenever phase 1 itself succeeded; the home-country default "BE" applies
only to years absent from a SUPPLIED residency mapping (and a present year's
entry is returned as-is). -/
theorem residency_none_fails (cpi : Int → Option ℚ) (fmv2025 : String → Option ℚ)
    (txs : List Tx) (s0 : Store) (marital : String)
    (fmvOnDate : Option (String → Option (String → Option ℚ))) :
    (∀ st : P1State,
      phase1 fmv2025 (sort_by_date txs) (sort_by_date txs) (initState s0) =
        Except.ok st →
      belgian_cgt cpi fmv2025 txs s0 marital none fmvOnDate =
        Except.error Err.attributeError) ∧
    (∀ (rs : List (Int × String)) (y : Int), List.lookup y rs = none →
      residencyAt rs y = "BE") ∧
    (∀ (rs : List (Int × String)) (y : Int) (c : String), List.lookup y rs = some c →
      residencyAt rs y = c) := by
  refine ⟨?_, ?_, ?_⟩
  · intro st hp1
    simp only [belgian_cgt, hp1]
  · intro rs y hl
    simp [residencyAt, hl]
  · intro rs y c hl
    simp [residencyAt, hl]

/-- Witness for C10: an empty transaction list with no residency mapping
fails with the attribute error; with a mapping covering only 2027, year 2026
defaults to "BE" and year 2027 reads "FR" from the mapping. -/
theorem residency_none_fails_witness :
    belgian_cgt CPI_TABLE fmvNone [] storeZ "single" none none =
      Except.error Err.attributeError ∧
    residencyAt [((2027 : Int), "FR")] 2026 = "BE" ∧
    residencyAt [((2027 : Int), "FR")] 2027 = "FR" := by
  refine ⟨(residency_none_fails CPI_TABLE fmvNone [] storeZ "single" none).1
      (initState storeZ) (by simp [sort_by_date, phase1]),
    (residency_none_fails CPI_TABLE fmvNone [] storeZ "single" none).2.1
      [((2027 : Int), "FR")] 2026 rfl,
    (residency_none_fails CPI_TABLE fmvNone [] storeZ "single" none).2.2
      [((2027 : Int), "FR")] 2027 "FR" rfl⟩

end BelgianCGT
